import Mathlib

/- Shallow embedding of the gofra compiler core: the static stack type-checker
(src/gofra/typecheck/type_safety.py) and the ARM64/MacOS code generator
(src/gofra/codegen/backends/arm64_macos.py), together with theorems checking the
natural-language specification against this code. -/

/-- Semantic type of a stack slot (gofra.typecheck.types.GofraType): a closed
enumeration with nominal equality. -/
inductive GofraType
  | INTEGER
  | POINTER
  | BOOLEAN
  deriving DecidableEq

/-- Built-in operator family (gofra.parser.intrinsics.Intrinsic). -/
inductive Intrinsic
  | PLUS | MINUS | MULTIPLY | DIVIDE | MODULUS
  | INCREMENT | DECREMENT
  | EQUAL | NOT_EQUAL | LESS_THAN | LESS_EQUAL_THAN | GREATER_THAN | GREATER_EQUAL_THAN
  | DROP | COPY | SWAP
  | MEMORY_LOAD | MEMORY_STORE
  | SYSCALL0 | SYSCALL1 | SYSCALL2 | SYSCALL3 | SYSCALL4 | SYSCALL5 | SYSCALL6
  deriving DecidableEq

/-- Operator kind (gofra.parser.operators.OperatorType). -/
inductive OperatorType
  | PUSH_INTEGER
  | PUSH_STRING
  | INTRINSIC
  | IF
  | DO
  | WHILE
  | END
  | CALL
  deriving DecidableEq

/-- One unit of the linear intermediate representation
(gofra.parser.operators.Operator).  The Python `operand` field is a union that
is disjoint by operator kind; it is embedded as three fields, of which the one
selected by `type` is meaningful (`operandInt` for PUSH_INTEGER, `operandStr`
for PUSH_STRING and CALL, `operandIntrinsic` for INTRINSIC).  `tokenText` is
the raw text of the source token (`operator.token.text`). -/
structure Operator where
  type : OperatorType
  operandInt : Int := 0
  operandStr : String := ""
  operandIntrinsic : Intrinsic := .PLUS
  tokenText : String := ""
  jumps_to_operator_idx : Option Nat := none
  has_optimizations : Bool := false
  infer_type_after_optimization : Option GofraType := none
  syscall_optimization_injected_args : Option (List (Option Int)) := none
  syscall_optimization_omit_result : Bool := false
  deriving DecidableEq

/-- Function record of the function table (name, input/output type contracts,
operator sequence of the body, emission flags). -/
structure GofraFunction where
  name : String
  type_contract_in : List GofraType
  type_contract_out : List GofraType
  source : List Operator
  emit_inline_body : Bool
  is_externally_defined : Bool
  deriving DecidableEq

/-- Parsed program context (gofra.context.ProgramContext): top-level operator
sequence, function table (an insertion-ordered name-to-record mapping) and the
external function name set. -/
structure ProgramContext where
  operators : List Operator
  functions : List (String × GofraFunction)
  extern_functions : List String
  deriving DecidableEq

/-- Structured type-check errors (gofra.typecheck.exceptions). -/
inductive TypecheckError
  | InsufficientOperands (op : Operator) (required : Nat)
  | InvalidArgumentType (expected : GofraType) (actual : GofraType) (op : Operator)
  | InvalidPointerArithmetic (actual_lhs : GofraType) (actual_rhs : GofraType) (op : Operator)
  | InvalidBinaryMathArithmetic (actual_lhs : GofraType) (actual_rhs : GofraType) (op : Operator)
  | NonEmptyStackAtEnd (stack_size : Nat)
  | UnknownCallTarget (name : String)
  deriving DecidableEq

/-- The abstract stack (`emulated_stack_types`).  The Python code keeps a list
whose last element is the top of stack; this embedding keeps the top at the
head of the list, so a Python `push_types(a, b)` (extend, leaving `b` on top)
becomes `push_types st [a, b] = b :: a :: st`. -/
def push_types (st : List GofraType) (ts : List GofraType) : List GofraType :=
  ts.reverse ++ st

/-- Modelled from the spec: `TypecheckContext.raise_for_enough_arguments` lives
in gofra/typecheck/_context.py, which is not among the sources; per the spec,
an arity pre-check verifies the abstract stack has at least the required depth
and a shortfall raises an insufficient-operands error annotated with the
offending operator. -/
def raise_for_enough_arguments (op : Operator) (st : List GofraType) (required : Nat) :
    Except TypecheckError Unit :=
  if st.length < required then .error (.InsufficientOperands op required) else .ok ()

/-- Modelled from the spec: `TypecheckContext.pop_argument_type` lives in
gofra/typecheck/_context.py, which is not among the sources; per the spec
"every pop operation must first verify the abstract stack has at least the
required depth; shortfall raises an insufficient-operands error annotated with
the offending operator", a pop from an empty abstract stack raises an
insufficient-operands error for the operator being checked. -/
def pop_argument_type (op : Operator) (st : List GofraType) :
    Except TypecheckError (GofraType × List GofraType) :=
  match st with
  | [] => .error (.InsufficientOperands op 1)
  | t :: rest => .ok (t, rest)

/-- Modelled from the spec: `TypecheckContext.pop_and_raise_for_argument_type`
(gofra/typecheck/_context.py, not among the sources): pop one slot and raise an
invalid-argument-type error (carrying expected type, actual type and operator)
when it differs from the expected type. -/
def pop_and_raise_for_argument_type (expected : GofraType) (op : Operator)
    (st : List GofraType) : Except TypecheckError (List GofraType) := do
  let (actual, rest) ← pop_argument_type op st
  if actual = expected then .ok rest
  else .error (.InvalidArgumentType expected actual op)

/-- Modelled from the spec: `TypecheckContext.consume_n_arguments`
(gofra/typecheck/_context.py, not among the sources): pop `n` slots of
unconstrained type. -/
def consume_n_arguments (op : Operator) (n : Nat) (st : List GofraType) :
    Except TypecheckError (List GofraType) :=
  match n with
  | 0 => .ok st
  | k + 1 => do
      let (_, rest) ← pop_argument_type op st
      consume_n_arguments op k rest

/-- Modelled from the spec: `Operator.get_syscall_arguments_count` lives in the
parser package, not among the sources; per the spec the arity of `SYSCALLn` is
its index plus one, the syscall number slot included. -/
def get_syscall_arguments_count (i : Intrinsic) : Nat :=
  match i with
  | .SYSCALL0 => 1
  | .SYSCALL1 => 2
  | .SYSCALL2 => 3
  | .SYSCALL3 => 4
  | .SYSCALL4 => 5
  | .SYSCALL5 => 6
  | .SYSCALL6 => 7
  | _ => 0

/-- The single syscall arm of the intrinsic `match` in `validate_type_safety`
(src/gofra/typecheck/type_safety.py, lines 132-155), shared by
`SYSCALL0`..`SYSCALL6`.  `if injected_args:` is Python truthiness: only a
present, non-empty annotation pushes one INTEGER per non-None injected slot
before the arity check and the pops. -/
def validate_syscall (op : Operator) (st : List GofraType) :
    Except TypecheckError (List GofraType) := do
  let args_count := get_syscall_arguments_count op.operandIntrinsic
  let st :=
    match op.syscall_optimization_injected_args with
    | some [] | none => st
    | some injected =>
        push_types st (injected.filterMap (fun v => v.map (fun _ => GofraType.INTEGER)))
  let _ ← raise_for_enough_arguments op st args_count
  let st ← consume_n_arguments op args_count st
  if op.syscall_optimization_omit_result then .ok st
  else .ok (push_types st [.INTEGER])

/-- The `INTRINSIC` arm of the `match` in `validate_type_safety`
(src/gofra/typecheck/type_safety.py, lines 39-167). -/
def validate_intrinsic (op : Operator) (st : List GofraType) :
    Except TypecheckError (List GofraType) :=
  match op.operandIntrinsic with
  | .MEMORY_STORE => do
      let _ ← raise_for_enough_arguments op st 2
      consume_n_arguments op 2 st
  | .MEMORY_LOAD => do
      let _ ← raise_for_enough_arguments op st 2
      let st ← consume_n_arguments op 2 st
      .ok (push_types st [.INTEGER])
  | .INCREMENT | .DECREMENT => do
      let _ ← raise_for_enough_arguments op st 1
      let st ← pop_and_raise_for_argument_type .INTEGER op st
      .ok (push_types st [.INTEGER])
  | .DROP => do
      let _ ← raise_for_enough_arguments op st 1
      consume_n_arguments op 1 st
  | .EQUAL | .LESS_EQUAL_THAN | .LESS_THAN | .GREATER_EQUAL_THAN
  | .GREATER_THAN | .NOT_EQUAL => do
      let _ ← raise_for_enough_arguments op st 2
      let st ← consume_n_arguments op 2 st
      .ok (push_types st [.BOOLEAN])
  | .MINUS | .PLUS => do
      let _ ← raise_for_enough_arguments op st 2
      let (b, st1) ← pop_argument_type op st
      let (a, st2) ← pop_argument_type op st1
      if a = .POINTER then
        -- Pointer arithmetics
        if b ≠ .INTEGER then
          .error (.InvalidPointerArithmetic a b op)
        else
          .ok (push_types st2 [.POINTER])
      else do
        let st3 := push_types st2 [b, a]
        let st4 ← pop_and_raise_for_argument_type .INTEGER op st3
        let st5 ← pop_and_raise_for_argument_type .INTEGER op st4
        .ok (push_types st5 [.INTEGER])
  | .MULTIPLY | .DIVIDE | .MODULUS => do
      -- Math arithmetics operates only on integers
      let _ ← raise_for_enough_arguments op st 2
      let (b, st1) ← pop_argument_type op st
      let (a, st2) ← pop_argument_type op st1
      if b ≠ .INTEGER ∨ a ≠ .INTEGER then
        .error (.InvalidBinaryMathArithmetic a b op)
      else
        .ok (push_types st2 [.INTEGER])
  | .SYSCALL0 | .SYSCALL1 | .SYSCALL2 | .SYSCALL3 | .SYSCALL4
  | .SYSCALL5 | .SYSCALL6 => validate_syscall op st
  | .COPY => do
      let _ ← raise_for_enough_arguments op st 1
      let (arg_type, rest) ← pop_argument_type op st
      .ok (push_types rest [arg_type, arg_type])
  | .SWAP => do
      let _ ← raise_for_enough_arguments op st 1
      let (a, st1) ← pop_argument_type op st
      let (b, st2) ← pop_argument_type op st1
      .ok (push_types st2 [a, b])

/-- Auxiliary for CALL: pop one slot per entry of `ts` (already reversed by the
caller, as in `for type_in in reversed(function.type_contract_in)`), each
checked against the expected contract type. -/
def pop_contract (op : Operator) (ts : List GofraType) (st : List GofraType) :
    Except TypecheckError (List GofraType) :=
  match ts with
  | [] => .ok st
  | t :: rest => do
      let st ← pop_and_raise_for_argument_type t op st
      pop_contract op rest st

/-- Effect of one operator on the abstract stack: the body of the `for` loop of
`validate_type_safety` (src/gofra/typecheck/type_safety.py, lines 23-201).
A CALL whose target is in neither the function table nor the external set is a
`KeyError` in Python (`program_context.functions[func_name]`); it is embedded
as the `UnknownCallTarget` error. -/
def validate_step (ctx : ProgramContext) (op : Operator) (st : List GofraType) :
    Except TypecheckError (List GofraType) :=
  match op.type with
  | .WHILE | .END => .ok st
  | .PUSH_INTEGER =>
      let push_type :=
        match op.has_optimizations, op.infer_type_after_optimization with
        | true, some t => t
        | _, _ => GofraType.INTEGER
      .ok (push_types st [push_type])
  | .PUSH_STRING => .ok (push_types st [.POINTER, .INTEGER])
  | .INTRINSIC => validate_intrinsic op st
  | .IF => do
      let _ ← raise_for_enough_arguments op st 1
      pop_and_raise_for_argument_type .BOOLEAN op st
  | .CALL =>
      let func_name := op.operandStr
      if func_name ∈ ctx.extern_functions then do
        -- extern functions are assumed to take and return one int (MVP)
        let _ ← raise_for_enough_arguments op st 1
        let st ← pop_and_raise_for_argument_type .INTEGER op st
        .ok (push_types st [.INTEGER])
      else
        match ctx.functions.lookup func_name with
        | none => .error (.UnknownCallTarget func_name)
        | some function => do
            let _ ← raise_for_enough_arguments op st function.type_contract_in.length
            let st ← pop_contract op function.type_contract_in.reverse st
            .ok (push_types st function.type_contract_out)
  | .DO => do
      let _ ← raise_for_enough_arguments op st 1
      pop_and_raise_for_argument_type .BOOLEAN op st

/-- The traversal of the operator sequence in `validate_type_safety`. -/
def validate_go (ctx : ProgramContext) (ops : List Operator) (st : List GofraType) :
    Except TypecheckError (List GofraType) :=
  match ops with
  | [] => .ok st
  | op :: rest => do
      let st ← validate_step ctx op st
      validate_go ctx rest st

/-- `validate_type_safety(program_context, operators)`
(src/gofra/typecheck/type_safety.py, lines 17-206): the abstract stack starts
empty (`emulated_stack_types=[]`), each operator is processed in order, and a
non-empty stack at the end raises `NonEmptyStackAtEndError` with the residual
stack size. -/
def validate_type_safety (ctx : ProgramContext) (operators : List Operator) :
    Except TypecheckError Unit := do
  let st ← validate_go ctx operators []
  if st = [] then .ok ()
  else .error (.NonEmptyStackAtEnd st.length)

/-- Code-generation state (gofra.codegen.backends._context.CodegenContext):
the output sink, embedded as the list of emitted lines, together with the
string-literal intern table. -/
structure CodegenContext where
  out : List String
  strings : List (String × String)
  deriving DecidableEq

/-- `context.write(*lines)`: append instruction lines to the output sink. -/
def CodegenContext.write (c : CodegenContext) (lines : List String) : CodegenContext :=
  { c with out := c.out ++ lines }

/-- Modelled from the spec: `CodegenContext.load_string` lives in
gofra/codegen/backends/_context.py, which is not among the sources; per the
spec the intern table assigns a fresh label `str_0`, `str_1`, ... in
first-seen order, one per `PUSH_STRING` occurrence. -/
def CodegenContext.load_string (c : CodegenContext) (payload : String) :
    String × CodegenContext :=
  let label := "str_" ++ toString c.strings.length
  (label, { c with strings := c.strings ++ [(label, payload)] })

/-- Codegen failures: Python raises `KeyError(function_name)` for a CALL target
in neither the function table nor the external set, and an `assert` failure
when an `IF`/`DO` operator has no jump target index. -/
inductive CodegenError
  | KeyError (name : String)
  | AssertionError
  deriving DecidableEq

/-- Lowering of a syscall intrinsic
(src/gofra/codegen/backends/arm64_macos.py, lines 118-162).  The Python
`injected_args = operator.syscall_optimization_injected_args or [None]*n`
aliases a present, non-empty annotation list, so the later
`injected_args.pop()` also shortens the operator's own annotation; the
returned operator carries that update.  The Python negative index
`injected_args[-arg_n]` (guarded by `if arg_n`) is the element at position
`length - arg_n` of the popped list. -/
def syscall_codegen (op : Operator) (c : CodegenContext) : CodegenContext × Operator :=
  let syscall_arguments := get_syscall_arguments_count op.operandIntrinsic
  let injected_args : List (Option Int) :=
    match op.syscall_optimization_injected_args with
    | some l => if l.isEmpty then List.replicate syscall_arguments none else l
    | none => List.replicate syscall_arguments none
  let c :=
    match injected_args.getLastD none with
    | none => c.write ["ldr X16, [SP]", "add SP, SP, #16"]
    | some v => c.write ["mov X16, #" ++ toString v]
  let rem := injected_args.dropLast
  let c := (List.range (syscall_arguments - 1)).foldl
      (fun c arg_n =>
        -- Load register in reversed order of stack so top of the stack is max register
        let arg_register := syscall_arguments - arg_n - 2
        let injected_arg : Option Int :=
          if arg_n = 0 then none else rem.getD (rem.length - arg_n) none
        match injected_arg with
        | none => c.write ["ldr X" ++ toString arg_register ++ ", [SP]", "add SP, SP, #16"]
        | some v => c.write ["mov X" ++ toString arg_register ++ ", #" ++ toString v])
      c
  let c := c.write ["svc #0"]
  let c :=
    if op.syscall_optimization_omit_result then c
    else c.write ["sub SP, SP, #16", "str X0, [SP]"]
  let op' :=
    match op.syscall_optimization_injected_args with
    | some l =>
        if l.isEmpty then op
        else { op with syscall_optimization_injected_args := some l.dropLast }
    | none => op
  (c, op')

/-- The `INTRINSIC` arm of `_write_executable_body_instruction_set`
(src/gofra/codegen/backends/arm64_macos.py, lines 100-308).  Only the syscall
case can change the operator (annotation aliasing); every other case returns
it unchanged. -/
def codegen_intrinsic (op : Operator) (c : CodegenContext) : CodegenContext × Operator :=
  match op.operandIntrinsic with
  | .MEMORY_LOAD =>
      (c.write ["ldr X0, [SP]", "ldr X1, [X0]", "str X1, [SP]"], op)
  | .MEMORY_STORE =>
      (c.write ["ldr X0, [SP]", "add SP, SP, #16", "ldr X1, [SP]", "str X0, [X1]"], op)
  | .DROP => (c.write ["add SP, SP, #16"], op)
  | .SYSCALL0 | .SYSCALL1 | .SYSCALL2 | .SYSCALL3 | .SYSCALL4
  | .SYSCALL5 | .SYSCALL6 => syscall_codegen op c
  | .PLUS =>
      (c.write ["ldr X0, [SP]", "add SP, SP, #16", "ldr X1, [SP]", "add SP, SP, #16",
                "add X0, X1, X0", "sub SP, SP, #16", "str X0, [SP]"], op)
  | .MINUS =>
      (c.write ["ldr X0, [SP]", "add SP, SP, #16", "ldr X1, [SP]", "add SP, SP, #16",
                "sub X0, X1, X0", "sub SP, SP, #16", "str X0, [SP]"], op)
  | .COPY =>
      (c.write ["ldr X0, [SP]", "str X0, [SP]", "sub SP, SP, #16", "str X0, [SP]"], op)
  | .INCREMENT =>
      (c.write ["ldr X0, [SP]", "add X0, X0, #1", "str X0, [SP]"], op)
  | .DECREMENT =>
      (c.write ["ldr X0, [SP]", "sub X0, X0, #1", "str X0, [SP]"], op)
  | .MULTIPLY =>
      (c.write ["ldr X0, [SP]", "add SP, SP, #16", "ldr X1, [SP]", "add SP, SP, #16",
                "mul X0, X1, X0", "sub SP, SP, #16", "str X0, [SP]"], op)
  | .DIVIDE =>
      (c.write ["ldr X0, [SP]", "add SP, SP, #16", "ldr X1, [SP]", "add SP, SP, #16",
                "sdiv X0, X1, X0", "sub SP, SP, #16", "str X0, [SP]"], op)
  | .MODULUS =>
      (c.write ["ldr X0, [SP]", "add SP, SP, #16", "ldr X1, [SP]", "add SP, SP, #16",
                "udiv X2, X1, X0", "mul X2, X2, X0", "sub X0, X1, X2",
                "sub SP, SP, #16", "str X0, [SP]"], op)
  | .NOT_EQUAL =>
      (c.write ["ldr X1, [SP]", "add SP, SP, #16", "ldr X0, [SP]", "add SP, SP, #16",
                "cmp X0, X1", "cset X0, ne", "sub SP, SP, #16", "str X0, [SP]"], op)
  | .GREATER_EQUAL_THAN =>
      (c.write ["ldr X0, [SP]", "add SP, SP, #16", "ldr X1, [SP]", "add SP, SP, #16",
                "cmp X0, X1", "cset X0, ge", "sub SP, SP, #16", "str X0, [SP]"], op)
  | .LESS_EQUAL_THAN =>
      (c.write ["ldr X1, [SP]", "add SP, SP, #16", "ldr X0, [SP]", "add SP, SP, #16",
                "cmp X0, X1", "cset X0, le", "sub SP, SP, #16", "str X0, [SP]"], op)
  | .LESS_THAN =>
      (c.write ["ldr X1, [SP]", "add SP, SP, #16", "ldr X0, [SP]", "add SP, SP, #16",
                "cmp X0, X1", "cset X0, lt", "sub SP, SP, #16", "str X0, [SP]"], op)
  | .GREATER_THAN =>
      (c.write ["ldr X1, [SP]", "add SP, SP, #16", "ldr X0, [SP]", "add SP, SP, #16",
                "cmp X0, X1", "cset X0, gt", "sub SP, SP, #16", "str X0, [SP]"], op)
  | .EQUAL =>
      (c.write ["ldr X1, [SP]", "add SP, SP, #16", "ldr X0, [SP]", "add SP, SP, #16",
                "cmp X0, X1", "cset X0, eq", "sub SP, SP, #16", "str X0, [SP]"], op)
  | .SWAP =>
      (c.write ["ldr X0, [SP]", "add SP, SP, #16", "ldr X1, [SP]", "str X0, [SP]",
                "sub SP, SP, #16", "str X1, [SP]"], op)

/-- Lowering of one operator: the body of the `for idx, operator in
enumerate(operators)` loop of `_write_executable_body_instruction_set`
(src/gofra/codegen/backends/arm64_macos.py, lines 54-342), with
`debug_comments` disabled. -/
def codegen_operator (program_context : ProgramContext) (idx : Nat) (op : Operator)
    (c : CodegenContext) : Except CodegenError (CodegenContext × Operator) :=
  match op.type with
  | .PUSH_INTEGER =>
      .ok (c.write ["sub SP, SP, #16", "mov X0, #" ++ toString op.operandInt,
                    "str X0, [SP]"], op)
  | .PUSH_STRING =>
      let (label, c) := c.load_string ((op.tokenText.drop 1).dropRight 1)
      .ok (c.write ["sub SP, SP, #16", "adr X0, " ++ label, "str X0, [SP]",
                    "sub SP, SP, #16", "mov X0, #" ++ toString op.operandStr.length,
                    "str X0, [SP]"], op)
  | .DO =>
      match op.jumps_to_operator_idx with
      | none => .error .AssertionError
      | some j =>
          .ok (c.write ["ldr X0, [SP]", "add SP, SP, #16", "cmp X0, #1",
                        "bne .ctx_" ++ toString j ++ "_over"], op)
  | .END | .WHILE =>
      match op.jumps_to_operator_idx with
      | some j =>
          .ok ((c.write ["b .ctx_" ++ toString j]).write
                 [".ctx_" ++ toString idx ++ "_over:"], op)
      | none => .ok (c.write [".ctx_" ++ toString idx ++ ":"], op)
  | .IF =>
      match op.jumps_to_operator_idx with
      | none => .error .AssertionError
      | some j =>
          .ok (c.write ["ldr X0, [SP]", "add SP, SP, #16", "cmp X0, #1",
                        "bne .ctx_" ++ toString j], op)
  | .INTRINSIC => .ok (codegen_intrinsic op c)
  | .CALL =>
      let function_name := op.operandStr
      match program_context.functions.lookup function_name with
      | some function =>
          let c :=
            if function.is_externally_defined then
              ((List.range function.type_contract_in.length).reverse).foldl
                (fun c arg_register =>
                  c.write ["ldr X" ++ toString arg_register ++ ", [SP]",
                           "add SP, SP, #16"])
                c
            else c
          let c := c.write ["bl " ++ function_name]
          let c :=
            if function.type_contract_out ≠ [] then
              c.write ["sub SP, SP, #16", "str X0, [SP]"]
            else c
          .ok (c, op)
      | none =>
          if function_name ∈ program_context.extern_functions then
            -- MVP: a single argument (X0) and a single return value
            .ok (c.write ["ldr X0, [SP]", "add SP, SP, #16", "bl " ++ function_name,
                          "sub SP, SP, #16", "str X0, [SP]"], op)
          else .error (.KeyError function_name)

/-- `_write_executable_body_instruction_set` over a whole operator sequence,
threading the enumeration index and returning the (possibly annotation-updated)
operators alongside the codegen state. -/
def codegen_body (ctx : ProgramContext) (ops : List Operator) (idx : Nat)
    (c : CodegenContext) : Except CodegenError (CodegenContext × List Operator) :=
  match ops with
  | [] => .ok (c, [])
  | op :: rest => do
      let (c, op') ← codegen_operator ctx idx op c
      let (c, rest') ← codegen_body ctx rest (idx + 1) c
      .ok (c, op' :: rest')

/-- `_write_function_declarations`
(src/gofra/codegen/backends/arm64_macos.py, lines 370-388): for each function
that is neither inline nor externally defined, emit its label, its lowered
body and `ret`. -/
def codegen_function_declarations (ctx : ProgramContext)
    (fns : List (String × GofraFunction)) (c : CodegenContext) :
    Except CodegenError (CodegenContext × List (String × GofraFunction)) :=
  match fns with
  | [] => .ok (c, [])
  | (key, f) :: rest =>
      if ¬ f.emit_inline_body ∧ ¬ f.is_externally_defined then do
        let c := c.write [f.name ++ ":"]
        let (c, src') ← codegen_body ctx f.source 0 c
        let c := c.write ["ret"]
        let (c, rest') ← codegen_function_declarations ctx rest c
        .ok (c, (key, { f with source := src' }) :: rest')
      else do
        let (c, rest') ← codegen_function_declarations ctx rest c
        .ok (c, (key, f) :: rest')

/-- `generate_ARM64_MacOS_backend(fd, program_context, debug_comments=False)`
(src/gofra/codegen/backends/arm64_macos.py, lines 12-43): function
declarations, entry header, top-level body, program epilogue and static
segment, in that order.  All `if debug_comments` emissions are skipped, as in
the `debug_comments=False` instantiation the claims are about.  The emitted
lines are returned together with the program context as it stands after
generation (the syscall lowering can shorten injected-args annotations). -/
def generate_ARM64_MacOS_backend (ctx : ProgramContext) :
    Except CodegenError (List String × ProgramContext) := do
  let c : CodegenContext := { out := [], strings := [] }
  let (c, fns') ← codegen_function_declarations ctx ctx.functions c
  let c := c.write [".global _start", ".align 4", "_start:"]
  let (c, ops') ← codegen_body ctx ctx.operators 0 c
  let c := c.write ["mov X0, #0", "mov X16, #1", "svc #0"]
  let c := c.write ["mem_buffer: .space 1000"]
  let c := c.write (c.strings.map (fun kv =>
    kv.1 ++ ": .string " ++ "\"" ++ kv.2 ++ "\""))
  .ok (c.out, { ctx with operators := ops', functions := fns' })

/-- Net change the emitted instruction lines apply to the hardware stack
pointer SP: each `sub SP, SP, #16` lowers SP by 16 (one pushed slot), each
`add SP, SP, #16` raises it by 16 (one popped slot); every other instruction
leaves SP unchanged. -/
def sp_delta_line (s : String) : Int :=
  if s = "sub SP, SP, #16" then -16
  else if s = "add SP, SP, #16" then 16
  else 0

/-- Net SP change of a list of emitted instruction lines. -/
def sp_delta (lines : List String) : Int :=
  (lines.map sp_delta_line).sum

/-- Follows the words of the specification and of claim C3 (not the source),
for comparison with `syscall_codegen`: the topmost slot supplies the syscall
number into X16 (moved as an immediate, with no pop, when the last injected
slot is a concrete integer); then for each remaining argument position p from
arity-2 down to 0, the data stack is popped into Xp exactly when injected
slot p is None, and otherwise injected slot p's concrete value is moved into
Xp as an immediate, with no pop. -/
def syscall_codegen_per_claim (op : Operator) (c : CodegenContext) : CodegenContext :=
  let syscall_arguments := get_syscall_arguments_count op.operandIntrinsic
  let injected_args : List (Option Int) :=
    match op.syscall_optimization_injected_args with
    | some l => if l.isEmpty then List.replicate syscall_arguments none else l
    | none => List.replicate syscall_arguments none
  let c :=
    match injected_args.getLastD none with
    | none => c.write ["ldr X16, [SP]", "add SP, SP, #16"]
    | some v => c.write ["mov X16, #" ++ toString v]
  let c := (List.range (syscall_arguments - 1)).foldl
      (fun c arg_n =>
        let p := syscall_arguments - arg_n - 2
        match injected_args.getD p none with
        | none => c.write ["ldr X" ++ toString p ++ ", [SP]", "add SP, SP, #16"]
        | some v => c.write ["mov X" ++ toString p ++ ", #" ++ toString v])
      c
  let c := c.write ["svc #0"]
  if op.syscall_optimization_omit_result then c
  else c.write ["sub SP, SP, #16", "str X0, [SP]"]

/-- Follows the words of the specification and of claim C1 (not the source),
for comparison with `validate_type_safety`: a function is accepted when running
the checker with the abstract stack initialized to the input contract
terminates with exactly the output contract (contracts listed bottom-to-top,
as pushed). -/
def function_accepted_per_claim (ctx : ProgramContext) (f : GofraFunction) : Bool :=
  match validate_go ctx f.source (push_types [] f.type_contract_in) with
  | .ok st => decide (st = push_types [] f.type_contract_out)
  | .error _ => false

/-- True exactly for an invalid-pointer-arithmetic outcome. -/
def is_invalid_pointer_arith (r : Except TypecheckError Unit) : Bool :=
  match r with
  | .error (.InvalidPointerArithmetic _ _ _) => true
  | _ => false

/-- True exactly when the result is an insufficient-operands error annotated
with the given operator. -/
def is_insufficient_operands_for (op : Operator)
    (r : Except TypecheckError (List GofraType)) : Bool :=
  match r with
  | .error (.InsufficientOperands o _) => decide (o = op)
  | _ => false

/-- True exactly for an error outcome of an abstract-stack step. -/
def is_error_step (r : Except TypecheckError (List GofraType)) : Bool :=
  match r with
  | .error _ => true
  | _ => false

/-- Slots a syscall requires from the incoming abstract stack: its arity less
the one INTEGER per non-None injected slot the checker pushes beforehand. -/
def syscall_consumes (op : Operator) : Nat :=
  let args_count := get_syscall_arguments_count op.operandIntrinsic
  let pushed :=
    match op.syscall_optimization_injected_args with
    | some [] | none => 0
    | some injected => (injected.filterMap id).length
  args_count - pushed

/-- Number of slots the type-checker requires from the incoming abstract stack
for one operator: the arity pre-check threshold, less (for syscalls) the slots
the checker itself pushes for injected arguments beforehand.  Zero when the
operator touches no stack slot or when a CALL target is unknown (the latter
fails with a lookup error, not an arity error). -/
def operator_consumes (ctx : ProgramContext) (op : Operator) : Nat :=
  match op.type with
  | .PUSH_INTEGER | .PUSH_STRING | .WHILE | .END => 0
  | .IF | .DO => 1
  | .INTRINSIC =>
      match op.operandIntrinsic with
      | .MEMORY_STORE | .MEMORY_LOAD => 2
      | .INCREMENT | .DECREMENT | .DROP | .COPY => 1
      | .EQUAL | .NOT_EQUAL | .LESS_THAN | .LESS_EQUAL_THAN
      | .GREATER_THAN | .GREATER_EQUAL_THAN => 2
      | .PLUS | .MINUS | .MULTIPLY | .DIVIDE | .MODULUS => 2
      | .SWAP => 2
      | .SYSCALL0 | .SYSCALL1 | .SYSCALL2 | .SYSCALL3 | .SYSCALL4
      | .SYSCALL5 | .SYSCALL6 => syscall_consumes op
  | .CALL =>
      if op.operandStr ∈ ctx.extern_functions then 1
      else
        match ctx.functions.lookup op.operandStr with
        | some function => function.type_contract_in.length
        | none => 0

/-- The emission of the function-table path of a CALL
(src/gofra/codegen/backends/arm64_macos.py, lines 313-328), as one line list:
argument-register pops (only for an externally defined record), the
branch-and-link, and the result push (only for a non-empty output contract). -/
def call_record_lines (f : GofraFunction) (name : String) : List String :=
  (if f.is_externally_defined then
     ((List.range f.type_contract_in.length).reverse).foldl
       (fun acc arg_register =>
         acc ++ ["ldr X" ++ toString arg_register ++ ", [SP]", "add SP, SP, #16"])
       []
   else []) ++
  ("bl " ++ name) ::
  (if f.type_contract_out ≠ [] then ["sub SP, SP, #16", "str X0, [SP]"] else [])

/-- An empty program context, used by the concrete scenarios. -/
def ctx0 : ProgramContext := { operators := [], functions := [], extern_functions := [] }

/-- An empty codegen state, used by the concrete scenarios. -/
def empty_codegen : CodegenContext := { out := [], strings := [] }

/-- `PUSH_INTEGER 1`. -/
def push_integer_one : Operator := { type := .PUSH_INTEGER, operandInt := 1 }

/-- `PUSH_INTEGER 5`. -/
def push_integer_five : Operator := { type := .PUSH_INTEGER, operandInt := 5 }

/-- `PUSH_STRING "x"` (operand the string payload, token text the quoted
literal). -/
def push_string_x : Operator :=
  { type := .PUSH_STRING, operandStr := "x", tokenText := "\"x\"" }

/-- `INTRINSIC DROP`. -/
def drop_op : Operator := { type := .INTRINSIC, operandIntrinsic := .DROP }

/-- `INTRINSIC PLUS`. -/
def plus_op : Operator := { type := .INTRINSIC, operandIntrinsic := .PLUS }

/-- `INTRINSIC MINUS`. -/
def minus_op : Operator := { type := .INTRINSIC, operandIntrinsic := .MINUS }

/-- `INTRINSIC SWAP`. -/
def swap_op : Operator := { type := .INTRINSIC, operandIntrinsic := .SWAP }

/-- `INTRINSIC MEMORY_LOAD`. -/
def memory_load_op : Operator := { type := .INTRINSIC, operandIntrinsic := .MEMORY_LOAD }

/-- The concrete sequence of spec scenario 4:
`[PUSH_INTEGER 5, PUSH_STRING "x", INTRINSIC DROP, INTRINSIC PLUS]`. -/
def c5_program : List Operator := [push_integer_five, push_string_x, drop_op, plus_op]

/-- A function whose body pushes one INTEGER, declared with an empty input
contract and the output contract `[INTEGER]`. -/
def push_one_function : GofraFunction :=
  { name := "one", type_contract_in := [], type_contract_out := [.INTEGER],
    source := [push_integer_one], emit_inline_body := false,
    is_externally_defined := false }

/-- A function named `g` declared with contract (POINTER, POINTER) -> (), not
inline and not externally defined. -/
def dual_function : GofraFunction :=
  { name := "g", type_contract_in := [.POINTER, .POINTER], type_contract_out := [],
    source := [], emit_inline_body := false, is_externally_defined := false }

/-- A context in which the name `g` is present both in the function table and
in the external-function set. -/
def ctx_dual : ProgramContext :=
  { operators := [], functions := [("g", dual_function)], extern_functions := ["g"] }

/-- `CALL g`. -/
def call_g : Operator := { type := .CALL, operandStr := "g" }

/-- `INTRINSIC SYSCALL2` annotated with the fully injected argument block
`[1, 2, 7]` and `omit_result`; the syscall arity is 3 (two arguments plus the
syscall number). -/
def syscall2_all_injected : Operator :=
  { type := .INTRINSIC, operandIntrinsic := .SYSCALL2, has_optimizations := true,
    syscall_optimization_injected_args := some [some 1, some 2, some 7],
    syscall_optimization_omit_result := true }

/-- `INTRINSIC SYSCALL0` annotated with the injected argument block `[60]`
and `omit_result`. -/
def syscall0_injected : Operator :=
  { type := .INTRINSIC, operandIntrinsic := .SYSCALL0, has_optimizations := true,
    syscall_optimization_injected_args := some [some 60],
    syscall_optimization_omit_result := true }

/-- A program context whose top level is the single annotated SYSCALL0. -/
def ctx_c4 : ProgramContext :=
  { operators := [syscall0_injected], functions := [], extern_functions := [] }

/-- The operator `syscall0_injected` as generation leaves it: the lowering's
`injected_args.pop()` shortened the aliased annotation list to `[]`. -/
def syscall0_mutated : Operator :=
  { syscall0_injected with syscall_optimization_injected_args := some [] }

/-- The program context `ctx_c4` as generation leaves it. -/
def ctx_c4_after : ProgramContext :=
  { ctx_c4 with operators := [syscall0_mutated] }

/-- `PUSH_STRING` operator whose operand string differs from the stripped token
text (possible only for ill-synchronized operators, but nothing in the
generator rules it out). -/
def push_string_ab_op : Operator :=
  { type := .PUSH_STRING, operandStr := "abc", tokenText := "\"ab\"" }

/-- First generation output for `ctx_c4`. -/
def c4_first_output : List String :=
  [".global _start", ".align 4", "_start:", "mov X16, #60", "svc #0",
   "mov X0, #0", "mov X16, #1", "svc #0", "mem_buffer: .space 1000"]

/-- Second generation output for `ctx_c4` (running the generator again on the
context the first run left behind). -/
def c4_second_output : List String :=
  [".global _start", ".align 4", "_start:", "ldr X16, [SP]", "add SP, SP, #16",
   "svc #0", "mov X0, #0", "mov X16, #1", "svc #0", "mem_buffer: .space 1000"]

@[simp] theorem except_bind_ok {ε α β : Type} (x : α) (f : α → Except ε β) :
    (Except.ok x >>= f) = f x := rfl

@[simp] theorem except_bind_error {ε α β : Type} (e : ε) (f : α → Except ε β) :
    ((Except.error e : Except ε α) >>= f) = Except.error e := rfl

theorem push_types_length (st ts : List GofraType) :
    (push_types st ts).length = ts.length + st.length := by
  simp [push_types]

theorem raise_for_enough_ok (op : Operator) (st : List GofraType) (n : Nat)
    (h : n ≤ st.length) : raise_for_enough_arguments op st n = .ok () := by
  unfold raise_for_enough_arguments
  rw [if_neg (by omega)]

theorem raise_for_enough_insufficient (op : Operator) (st : List GofraType) (n : Nat)
    (h : st.length < n) :
    raise_for_enough_arguments op st n = .error (.InsufficientOperands op n) := by
  unfold raise_for_enough_arguments
  rw [if_pos h]

theorem injected_types_length (l : List (Option Int)) :
    (l.filterMap (fun v => v.map (fun _ => GofraType.INTEGER))).length =
      (l.filterMap id).length := by
  induction l with
  | nil => rfl
  | cons hd tl ih => cases hd <;> simp [List.filterMap_cons, ih]

theorem write_write (c : CodegenContext) (a b : List String) :
    (c.write a).write b = c.write (a ++ b) := by
  simp [CodegenContext.write, List.append_assoc]

theorem foldl_append_shift {α : Type} (g : α → List String) (l : List α)
    (a : List String) :
    l.foldl (fun acc r => acc ++ g r) a = a ++ l.foldl (fun acc r => acc ++ g r) [] := by
  induction l generalizing a with
  | nil => simp
  | cons hd tl ih =>
      rw [List.foldl_cons, List.foldl_cons, List.nil_append, ih, ih (g hd)]
      simp [List.append_assoc]

theorem foldl_write_eq {α : Type} (g : α → List String) (l : List α)
    (c : CodegenContext) :
    l.foldl (fun acc r => acc.write (g r)) c =
      c.write (l.foldl (fun acc r => acc ++ g r) []) := by
  induction l generalizing c with
  | nil => simp [CodegenContext.write]
  | cons hd tl ih =>
      rw [List.foldl_cons, List.foldl_cons, List.nil_append, ih, write_write,
        foldl_append_shift g tl (g hd)]

/-- Claim C2: the claim says the MEMORY_LOAD lowering realizes the
type-checker's consume-two-produce-one effect, a net SP change of +16 bytes.
The emitted template is `[ldr X0, [SP]; ldr X1, [X0]; str X1, [SP]]`, whose
net SP change is 0, while the type-checker maps a two-slot stack to a
one-slot stack: the two sides of the code disagree, and the claimed +16 net
change is realized by neither. -/
theorem c2_divergence :
    (codegen_intrinsic memory_load_op empty_codegen).1.out =
      ["ldr X0, [SP]", "ldr X1, [X0]", "str X1, [SP]"] ∧
    sp_delta (codegen_intrinsic memory_load_op empty_codegen).1.out = 0 ∧
    validate_step ctx0 memory_load_op [.POINTER, .INTEGER] = .ok [.INTEGER] ∧
    (0 : Int) ≠ 16 := by
  refine ⟨rfl, rfl, ?_, by decide⟩
  rfl

/-- Claim C3: the claim describes the syscall lowering as popping into Xp
exactly when injected slot p is None and otherwise moving slot p's value into
Xp.  On `SYSCALL2` with the fully injected block `[1, 2, 7]` (which the
type-checker accepts as consuming nothing from the caller's stack), the code
emits a pop for X1 even though slot 1 injects the value 2, and moves slot 1's
value 2 (not slot 0's value 1) into X0; the emission the claim describes
(`syscall_codegen_per_claim`, built from the claim's words) differs. -/
theorem c3_divergence :
    validate_type_safety ctx0 [syscall2_all_injected] = .ok () ∧
    (syscall_codegen syscall2_all_injected empty_codegen).1.out =
      ["mov X16, #7", "ldr X1, [SP]", "add SP, SP, #16", "mov X0, #2", "svc #0"] ∧
    (syscall_codegen_per_claim syscall2_all_injected empty_codegen).out =
      ["mov X16, #7", "mov X1, #2", "mov X0, #1", "svc #0"] ∧
    (syscall_codegen syscall2_all_injected empty_codegen).1.out ≠
      (syscall_codegen_per_claim syscall2_all_injected empty_codegen).out := by
  refine ⟨rfl, rfl, rfl, by decide⟩

/-- Claim C4: the claim says generation is read-only on the program context
and byte-identical across two runs with debug comments disabled.  On a
type-checked program holding one SYSCALL0 with injected args `[60]`, the first
run emits `mov X16, #60` and shortens the operator's aliased injected-args
annotation to `[]`; the second run on the same (now mutated) context emits a
pop for X16 instead: the outputs differ and the context is changed. -/
theorem c4_divergence :
    validate_type_safety ctx_c4 ctx_c4.operators = .ok () ∧
    generate_ARM64_MacOS_backend ctx_c4 = .ok (c4_first_output, ctx_c4_after) ∧
    generate_ARM64_MacOS_backend ctx_c4_after = .ok (c4_second_output, ctx_c4_after) ∧
    c4_first_output ≠ c4_second_output ∧
    ctx_c4_after ≠ ctx_c4 := by
  refine ⟨rfl, rfl, rfl, by decide, by decide⟩

/-- Claim C5 (counterexample): on
`[PUSH_INTEGER 5, PUSH_STRING "x", INTRINSIC DROP, INTRINSIC PLUS]` — lower
operand INTEGER, upper operand POINTER — the type-checker fails with the
invalid-argument-type error (expected INTEGER, actual POINTER), not with the
invalid-pointer-arithmetic error the claim names. -/
theorem c5_counterexample :
    validate_type_safety ctx0 c5_program =
      .error (.InvalidArgumentType .INTEGER .POINTER plus_op) ∧
    is_invalid_pointer_arith (validate_type_safety ctx0 c5_program) = false := by
  exact ⟨rfl, rfl⟩

/-- Claim C5 (amended): for every PLUS or MINUS intrinsic applied to a stack
whose lower operand is INTEGER and whose upper operand is POINTER, the
type-checker fails with the invalid-argument-type error kind, expected
INTEGER and actual POINTER, annotated with the operator. -/
theorem c5_amended (ctx : ProgramContext) (op : Operator) (rest : List GofraType)
    (hty : op.type = .INTRINSIC)
    (hi : op.operandIntrinsic = .PLUS ∨ op.operandIntrinsic = .MINUS) :
    validate_step ctx op (.POINTER :: .INTEGER :: rest) =
      .error (.InvalidArgumentType .INTEGER .POINTER op) := by
  have hr : raise_for_enough_arguments op (.POINTER :: .INTEGER :: rest) 2 = .ok () :=
    raise_for_enough_ok _ _ _ (by simp only [List.length_cons]; omega)
  rcases hi with hi | hi <;>
    simp [validate_step, validate_intrinsic, hty, hi, hr, pop_argument_type,
      pop_and_raise_for_argument_type, push_types]

/-- Claim C5 (amended, witness): the MINUS instance of the amended claim at
the concrete stack `[POINTER, INTEGER]`. -/
theorem c5_amended_witness :
    minus_op.type = .INTRINSIC ∧
    validate_step ctx0 minus_op [.POINTER, .INTEGER] =
      .error (.InvalidArgumentType .INTEGER .POINTER minus_op) :=
  ⟨rfl, c5_amended ctx0 minus_op [] rfl (Or.inr rfl)⟩

/-- Claim C1 (counterexample): for the function with input contract `[]`,
output contract `[INTEGER]` and body `[PUSH_INTEGER 1]`, running the checker
per the claim's words (stack initialized with the input contract, accepted
when it ends in the output contract) accepts, but `validate_type_safety` on
the function's operator sequence fails with `NonEmptyStackAtEnd 1`: the
checker initializes the stack empty and demands emptiness at the end, the
declared contracts notwithstanding. -/
theorem c1_counterexample :
    function_accepted_per_claim ctx0 push_one_function = true ∧
    validate_type_safety ctx0 push_one_function.source =
      .error (.NonEmptyStackAtEnd 1) := by
  exact ⟨rfl, rfl⟩

/-- Claim C1 (amended): validating any function's operator sequence succeeds
exactly when the traversal started from the empty abstract stack ends with the
empty stack; the function's declared contracts play no part. -/
theorem c1_amended (ctx : ProgramContext) (f : GofraFunction) :
    validate_type_safety ctx f.source = .ok () ↔
      validate_go ctx f.source [] = .ok [] := by
  unfold validate_type_safety
  cases hgo : validate_go ctx f.source [] with
  | error e => simp [hgo]
  | ok st =>
      cases st with
      | nil => simp [hgo]
      | cons t rest => simp [hgo]

/-- Claim C8: whenever the traversal of the whole top-level sequence from the
empty stack ends without error in stack `st`, validation succeeds exactly when
`st` is empty, and otherwise fails with `NonEmptyStackAtEnd` carrying the
residual stack size. -/
theorem c8_nonempty_stack_at_end (ctx : ProgramContext) (ops : List Operator)
    (st : List GofraType) (h : validate_go ctx ops [] = .ok st) :
    validate_type_safety ctx ops =
      if st.isEmpty then .ok () else .error (.NonEmptyStackAtEnd st.length) := by
  unfold validate_type_safety
  rw [h, except_bind_ok]
  cases st <;> simp

/-- Claim C8 (witness): the program `[PUSH_INTEGER 1]` ends with one residual
slot and fails with `NonEmptyStackAtEnd 1`. -/
theorem c8_witness :
    validate_go ctx0 [push_integer_one] [] = .ok [GofraType.INTEGER] ∧
    validate_type_safety ctx0 [push_integer_one] =
      .error (.NonEmptyStackAtEnd 1) := by
  constructor
  · rfl
  · have h := c8_nonempty_stack_at_end ctx0 [push_integer_one] [GofraType.INTEGER] rfl
    simpa using h

/-- Claim C10: for every PUSH_STRING operator the generator interns the
operator's token text stripped of its first and last character as the
`.string` payload, while the pushed length immediate is the length of the
operator's operand string — taken from the operand, not from the interned
payload. -/
theorem c10_push_string (ctx : ProgramContext) (idx : Nat) (op : Operator)
    (c : CodegenContext) (h : op.type = .PUSH_STRING) :
    codegen_operator ctx idx op c =
      .ok ({ out := c.out ++
               ["sub SP, SP, #16",
                "adr X0, " ++ ("str_" ++ toString c.strings.length),
                "str X0, [SP]",
                "sub SP, SP, #16",
                "mov X0, #" ++ toString op.operandStr.length,
                "str X0, [SP]"],
             strings := c.strings ++
               [("str_" ++ toString c.strings.length,
                 (op.tokenText.drop 1).dropRight 1)] }, op) := by
  simp [codegen_operator, h, CodegenContext.load_string, CodegenContext.write]

/-- Claim C10 (witness): a PUSH_STRING operator whose token text is `"ab"`
(payload `ab`, length 2) but whose operand string is `abc` (length 3): the
interned payload and the pushed length immediate disagree. -/
theorem c10_witness :
    push_string_ab_op.type = .PUSH_STRING ∧
    codegen_operator ctx0 0 push_string_ab_op empty_codegen =
      .ok ({ out := empty_codegen.out ++
               ["sub SP, SP, #16",
                "adr X0, " ++ ("str_" ++ toString empty_codegen.strings.length),
                "str X0, [SP]",
                "sub SP, SP, #16",
                "mov X0, #" ++ toString push_string_ab_op.operandStr.length,
                "str X0, [SP]"],
             strings := empty_codegen.strings ++
               [("str_" ++ toString empty_codegen.strings.length,
                 (push_string_ab_op.tokenText.drop 1).dropRight 1)] },
            push_string_ab_op) ∧
    ((push_string_ab_op.tokenText.drop 1).dropRight 1).length ≠
      push_string_ab_op.operandStr.length :=
  ⟨rfl, c10_push_string ctx0 0 push_string_ab_op empty_codegen rfl, by decide⟩

/-- Claim C7: for PLUS or MINUS over a stack of depth at least two, with `b`
the upper popped type and `a` the lower: POINTER below with INTEGER above is
accepted and pushes POINTER; INTEGER below with INTEGER above is accepted and
pushes INTEGER; every other combination is rejected with an error. -/
theorem c7_plus_minus_typing (ctx : ProgramContext) (op : Operator)
    (a b : GofraType) (rest : List GofraType) (hty : op.type = .INTRINSIC)
    (hi : op.operandIntrinsic = .PLUS ∨ op.operandIntrinsic = .MINUS) :
    (a = .POINTER → b = .INTEGER →
      validate_step ctx op (b :: a :: rest) = .ok (.POINTER :: rest)) ∧
    (a = .INTEGER → b = .INTEGER →
      validate_step ctx op (b :: a :: rest) = .ok (.INTEGER :: rest)) ∧
    (¬(a = .POINTER ∧ b = .INTEGER) → ¬(a = .INTEGER ∧ b = .INTEGER) →
      is_error_step (validate_step ctx op (b :: a :: rest)) = true) := by
  have hr : ∀ x y : GofraType, raise_for_enough_arguments op (x :: y :: rest) 2 = .ok () :=
    fun x y => raise_for_enough_ok _ _ _ (by simp only [List.length_cons]; omega)
  refine ⟨?_, ?_, ?_⟩
  · rintro rfl rfl
    rcases hi with hi | hi <;>
      simp [validate_step, validate_intrinsic, hty, hi, hr, pop_argument_type,
        pop_and_raise_for_argument_type, push_types]
  · rintro rfl rfl
    rcases hi with hi | hi <;>
      simp [validate_step, validate_intrinsic, hty, hi, hr, pop_argument_type,
        pop_and_raise_for_argument_type, push_types]
  · intro h1 h2
    rcases hi with hi | hi <;>
      cases a <;> cases b <;>
        simp_all [validate_step, validate_intrinsic, hty, pop_argument_type,
          pop_and_raise_for_argument_type, push_types, is_error_step]

/-- Claim C7 (witness): PLUS on the stack `[INTEGER, POINTER]` (POINTER the
lower operand) is accepted and yields `[POINTER]`. -/
theorem c7_witness :
    plus_op.type = .INTRINSIC ∧
    ((GofraType.POINTER = .POINTER → GofraType.INTEGER = .INTEGER →
        validate_step ctx0 plus_op ([.INTEGER, .POINTER]) = .ok [.POINTER]) ∧
      (GofraType.POINTER = .INTEGER → GofraType.INTEGER = .INTEGER →
        validate_step ctx0 plus_op ([.INTEGER, .POINTER]) = .ok [.INTEGER]) ∧
      (¬(GofraType.POINTER = .POINTER ∧ GofraType.INTEGER = .INTEGER) →
        ¬(GofraType.POINTER = .INTEGER ∧ GofraType.INTEGER = .INTEGER) →
        is_error_step (validate_step ctx0 plus_op ([.INTEGER, .POINTER])) = true)) :=
  ⟨rfl, c7_plus_minus_typing ctx0 plus_op .POINTER .INTEGER [] rfl (Or.inl rfl)⟩

/-- Claim C9: for a CALL whose target name is in both the function table and
the external-function set, the type-checker takes the external path first and
applies the fixed external contract — pop one INTEGER, push one INTEGER —
independently of the record `f` and its declared contracts, while the code
generator checks the function table first and lowers the call from the record
`f` (argument-register pops only when the record is externally defined, the
branch-and-link, a result push only when the record's output contract is
non-empty). -/
theorem c9_call_precedence (ctx : ProgramContext) (name : String)
    (f : GofraFunction) (op : Operator) (t : GofraType) (st : List GofraType)
    (idx : Nat) (c : CodegenContext)
    (hty : op.type = .CALL) (hname : op.operandStr = name)
    (hf : ctx.functions.lookup name = some f)
    (hext : name ∈ ctx.extern_functions) :
    validate_step ctx op (t :: st) =
      (if t = .INTEGER then .ok (.INTEGER :: st)
       else .error (.InvalidArgumentType .INTEGER t op)) ∧
    codegen_operator ctx idx op c = .ok (c.write (call_record_lines f name), op) := by
  constructor
  · have hr : raise_for_enough_arguments op (t :: st) 1 = .ok () :=
      raise_for_enough_ok _ _ _ (by simp only [List.length_cons]; omega)
    simp only [validate_step, hty, hname]
    rw [if_pos hext]
    by_cases hT : t = .INTEGER
    · subst hT
      simp [hr, pop_and_raise_for_argument_type, pop_argument_type, push_types]
    · simp [hr, hT, pop_and_raise_for_argument_type, pop_argument_type, push_types]
  · simp only [codegen_operator, hty, hname, hf]
    rw [foldl_write_eq]
    unfold call_record_lines
    cases hdef : f.is_externally_defined <;>
      cases hout : f.type_contract_out <;>
        simp [hdef, hout, write_write, CodegenContext.write]

/-- Claim C9 (witness): in a context where `g` is both a recorded function
(with contract (POINTER, POINTER) -> ()) and an external name, the
type-checker applies the fixed INTEGER -> INTEGER contract and the generator
lowers from the record (a bare `bl g`). -/
theorem c9_witness :
    call_g.type = .CALL ∧
    ctx_dual.functions.lookup "g" = some dual_function ∧
    "g" ∈ ctx_dual.extern_functions ∧
    (validate_step ctx_dual call_g ([GofraType.INTEGER]) =
        (if (GofraType.INTEGER = .INTEGER) then .ok [GofraType.INTEGER]
         else .error (.InvalidArgumentType .INTEGER .INTEGER call_g)) ∧
      codegen_operator ctx_dual 0 call_g empty_codegen =
        .ok (empty_codegen.write (call_record_lines dual_function "g"), call_g)) :=
  ⟨rfl, rfl, by decide,
    c9_call_precedence ctx_dual "g" dual_function call_g .INTEGER [] 0 empty_codegen
      rfl rfl rfl (by decide)⟩

theorem validate_syscall_insufficient (op : Operator) (st : List GofraType)
    (h : st.length < syscall_consumes op) :
    is_insufficient_operands_for op (validate_syscall op st) = true := by
  unfold syscall_consumes at h
  unfold validate_syscall
  rcases hinj : op.syscall_optimization_injected_args with _ | l
  · simp only [hinj, Nat.sub_zero] at h
    have hr := raise_for_enough_insufficient op st
      (get_syscall_arguments_count op.operandIntrinsic) h
    simp [hinj, hr, is_insufficient_operands_for]
  · rcases l with _ | ⟨v, l'⟩
    · simp only [hinj, Nat.sub_zero] at h
      have hr := raise_for_enough_insufficient op st
        (get_syscall_arguments_count op.operandIntrinsic) h
      simp [hinj, hr, is_insufficient_operands_for]
    · simp only [hinj] at h
      have hlen : (push_types st
          ((v :: l').filterMap (fun x => x.map (fun _ => GofraType.INTEGER)))).length <
          get_syscall_arguments_count op.operandIntrinsic := by
        rw [push_types_length, injected_types_length]
        omega
      have hr := raise_for_enough_insufficient op _ _ hlen
      simp [hinj, hr, is_insufficient_operands_for]

/-- Claim C6: whenever the abstract stack holds fewer slots than an operator
requires from it, the type-checker fails with an insufficient-operands error
annotated with that operator — the arity pre-checks, together with the
depth-verifying pops, keep the checker from ever popping past the bottom of
the stack.  (SWAP, whose pre-check covers only one of its two pops, still
fails this way on a depth-1 stack: the second, depth-verifying pop raises.) -/
theorem c6_insufficient_operands (ctx : ProgramContext) (op : Operator)
    (st : List GofraType) (h : st.length < operator_consumes ctx op) :
    is_insufficient_operands_for op (validate_step ctx op st) = true := by
  cases hty : op.type with
  | PUSH_INTEGER =>
      simp only [operator_consumes, hty] at h
      exact absurd h (Nat.not_lt_zero _)
  | PUSH_STRING =>
      simp only [operator_consumes, hty] at h
      exact absurd h (Nat.not_lt_zero _)
  | WHILE =>
      simp only [operator_consumes, hty] at h
      exact absurd h (Nat.not_lt_zero _)
  | END =>
      simp only [operator_consumes, hty] at h
      exact absurd h (Nat.not_lt_zero _)
  | IF =>
      simp only [operator_consumes, hty] at h
      rcases st with _ | ⟨t0, st'⟩
      · have hr := raise_for_enough_insufficient op [] 1 (by simp)
        simp [validate_step, hty, hr, is_insufficient_operands_for]
      · simp only [List.length_cons] at h
        exact absurd h (by omega)
  | DO =>
      simp only [operator_consumes, hty] at h
      rcases st with _ | ⟨t0, st'⟩
      · have hr := raise_for_enough_insufficient op [] 1 (by simp)
        simp [validate_step, hty, hr, is_insufficient_operands_for]
      · simp only [List.length_cons] at h
        exact absurd h (by omega)
  | CALL =>
      by_cases hmem : op.operandStr ∈ ctx.extern_functions
      · simp only [operator_consumes, hty, hmem, if_true, if_pos] at h
        have hr := raise_for_enough_insufficient op st 1 h
        simp [validate_step, hty, hmem, hr, is_insufficient_operands_for]
      · cases hlk : ctx.functions.lookup op.operandStr with
        | none =>
            simp only [operator_consumes, hty, hlk, if_neg hmem] at h
            exact absurd h (Nat.not_lt_zero _)
        | some f =>
            simp only [operator_consumes, hty, hlk, if_neg hmem] at h
            have hr := raise_for_enough_insufficient op st
              f.type_contract_in.length h
            simp [validate_step, hty, hmem, hlk, hr, is_insufficient_operands_for]
  | INTRINSIC =>
      cases hi : op.operandIntrinsic with
      | MEMORY_STORE =>
          simp only [operator_consumes, hty, hi] at h
          have hr := raise_for_enough_insufficient op st 2 h
          simp [validate_step, validate_intrinsic, hty, hi, hr,
            is_insufficient_operands_for]
      | MEMORY_LOAD =>
          simp only [operator_consumes, hty, hi] at h
          have hr := raise_for_enough_insufficient op st 2 h
          simp [validate_step, validate_intrinsic, hty, hi, hr,
            is_insufficient_operands_for]
      | INCREMENT =>
          simp only [operator_consumes, hty, hi] at h
          have hr := raise_for_enough_insufficient op st 1 h
          simp [validate_step, validate_intrinsic, hty, hi, hr,
            is_insufficient_operands_for]
      | DECREMENT =>
          simp only [operator_consumes, hty, hi] at h
          have hr := raise_for_enough_insufficient op st 1 h
          simp [validate_step, validate_intrinsic, hty, hi, hr,
            is_insufficient_operands_for]
      | DROP =>
          simp only [operator_consumes, hty, hi] at h
          have hr := raise_for_enough_insufficient op st 1 h
          simp [validate_step, validate_intrinsic, hty, hi, hr,
            is_insufficient_operands_for]
      | COPY =>
          simp only [operator_consumes, hty, hi] at h
          have hr := raise_for_enough_insufficient op st 1 h
          simp [validate_step, validate_intrinsic, hty, hi, hr,
            is_insufficient_operands_for]
      | EQUAL =>
          simp only [operator_consumes, hty, hi] at h
          have hr := raise_for_enough_insufficient op st 2 h
          simp [validate_step, validate_intrinsic, hty, hi, hr,
            is_insufficient_operands_for]
      | NOT_EQUAL =>
          simp only [operator_consumes, hty, hi] at h
          have hr := raise_for_enough_insufficient op st 2 h
          simp [validate_step, validate_intrinsic, hty, hi, hr,
            is_insufficient_operands_for]
      | LESS_THAN =>
          simp only [operator_consumes, hty, hi] at h
          have hr := raise_for_enough_insufficient op st 2 h
          simp [validate_step, validate_intrinsic, hty, hi, hr,
            is_insufficient_operands_for]
      | LESS_EQUAL_THAN =>
          simp only [operator_consumes, hty, hi] at h
          have hr := raise_for_enough_insufficient op st 2 h
          simp [validate_step, validate_intrinsic, hty, hi, hr,
            is_insufficient_operands_for]
      | GREATER_THAN =>
          simp only [operator_consumes, hty, hi] at h
          have hr := raise_for_enough_insufficient op st 2 h
          simp [validate_step, validate_intrinsic, hty, hi, hr,
            is_insufficient_operands_for]
      | GREATER_EQUAL_THAN =>
          simp only [operator_consumes, hty, hi] at h
          have hr := raise_for_enough_insufficient op st 2 h
          simp [validate_step, validate_intrinsic, hty, hi, hr,
            is_insufficient_operands_for]
      | PLUS =>
          simp only [operator_consumes, hty, hi] at h
          have hr := raise_for_enough_insufficient op st 2 h
          simp [validate_step, validate_intrinsic, hty, hi, hr,
            is_insufficient_operands_for]
      | MINUS =>
          simp only [operator_consumes, hty, hi] at h
          have hr := raise_for_enough_insufficient op st 2 h
          simp [validate_step, validate_intrinsic, hty, hi, hr,
            is_insufficient_operands_for]
      | MULTIPLY =>
          simp only [operator_consumes, hty, hi] at h
          have hr := raise_for_enough_insufficient op st 2 h
          simp [validate_step, validate_intrinsic, hty, hi, hr,
            is_insufficient_operands_for]
      | DIVIDE =>
          simp only [operator_consumes, hty, hi] at h
          have hr := raise_for_enough_insufficient op st 2 h
          simp [validate_step, validate_intrinsic, hty, hi, hr,
            is_insufficient_operands_for]
      | MODULUS =>
          simp only [operator_consumes, hty, hi] at h
          have hr := raise_for_enough_insufficient op st 2 h
          simp [validate_step, validate_intrinsic, hty, hi, hr,
            is_insufficient_operands_for]
      | SWAP =>
          simp only [operator_consumes, hty, hi] at h
          rcases st with _ | ⟨a, _ | ⟨b, t⟩⟩
          · have hr := raise_for_enough_insufficient op [] 1 (by simp)
            simp [validate_step, validate_intrinsic, hty, hi, hr,
              is_insufficient_operands_for]
          · simp [validate_step, validate_intrinsic, hty, hi,
              raise_for_enough_arguments, pop_argument_type,
              is_insufficient_operands_for]
          · simp only [List.length_cons] at h
            exact absurd h (by omega)
      | SYSCALL0 =>
          simp only [operator_consumes, hty, hi] at h
          simpa [validate_step, validate_intrinsic, hty, hi] using
            validate_syscall_insufficient op st h
      | SYSCALL1 =>
          simp only [operator_consumes, hty, hi] at h
          simpa [validate_step, validate_intrinsic, hty, hi] using
            validate_syscall_insufficient op st h
      | SYSCALL2 =>
          simp only [operator_consumes, hty, hi] at h
          simpa [validate_step, validate_intrinsic, hty, hi] using
            validate_syscall_insufficient op st h
      | SYSCALL3 =>
          simp only [operator_consumes, hty, hi] at h
          simpa [validate_step, validate_intrinsic, hty, hi] using
            validate_syscall_insufficient op st h
      | SYSCALL4 =>
          simp only [operator_consumes, hty, hi] at h
          simpa [validate_step, validate_intrinsic, hty, hi] using
            validate_syscall_insufficient op st h
      | SYSCALL5 =>
          simp only [operator_consumes, hty, hi] at h
          simpa [validate_step, validate_intrinsic, hty, hi] using
            validate_syscall_insufficient op st h
      | SYSCALL6 =>
          simp only [operator_consumes, hty, hi] at h
          simpa [validate_step, validate_intrinsic, hty, hi] using
            validate_syscall_insufficient op st h

/-- Claim C6 (witness): SWAP consumes two slots; on the depth-1 stack
`[INTEGER]` the checker fails with an insufficient-operands error annotated
with the SWAP operator. -/
theorem c6_witness :
    [GofraType.INTEGER].length < operator_consumes ctx0 swap_op ∧
    is_insufficient_operands_for swap_op
      (validate_step ctx0 swap_op [GofraType.INTEGER]) = true :=
  ⟨by decide, c6_insufficient_operands ctx0 swap_op [GofraType.INTEGER] (by decide)⟩
